import Mathlib

/-!
Shallow embedding of `semaforos.py` (a threaded weather-station simulator)
and proofs about its buffer, generator, logger and trend-analysis code.

Numeric values are modelled as rationals (`ℚ`); timestamps as a record of
calendar fields.  Stateful code is modelled by explicit state passing: the
shared buffer is a capacity plus a list (the `deque(maxlen=...)`), and the
two worker threads become functions from their observation sequences to
the readings appended / rows written.
-/

namespace Semaforos

/-- A timestamp as produced by `datetime.now()`: calendar fields down to
microseconds. -/
structure Timestamp where
  year : ℕ
  month : ℕ
  day : ℕ
  hour : ℕ
  minute : ℕ
  second : ℕ
  microsecond : ℕ
deriving DecidableEq, Inhabited

/-- One sample `(ahora, round(temperatura, 2), round(humedad, 2),
round(presion, 2))` as appended by the generator thread. -/
structure Reading where
  ts : Timestamp
  temperatura : ℚ
  humedad : ℚ
  presion : ℚ
deriving DecidableEq, Inhabited

/-- Shared state as made by `crear_compartido`: the `deque(maxlen=maxlen)`
is modelled as its bound plus its current contents (oldest first).  The
lock serialises access in the source; in this sequential model every
operation is atomic, so the lock needs no separate representation. -/
structure Compartido where
  maxlen : ℕ
  history : List Reading
deriving DecidableEq

/-- Model of `crear_compartido(maxlen=300)`: fresh shared state with an
empty history.  The default bound in the source is 300. -/
def crear_compartido (maxlen : ℕ := 300) : Compartido :=
  { maxlen := maxlen, history := [] }

/-- Last `n` elements of a list: what a `deque(maxlen=n)` retains,
dropping from the left (oldest) end. -/
def ultimos {α : Type*} (n : ℕ) (l : List α) : List α :=
  l.drop (l.length - n)

/-- Model of `agregar_muestra`: `history.append(muestra)` on a
`deque(maxlen=...)`; when the deque is full the oldest entry is
evicted. -/
def agregar_muestra (c : Compartido) (m : Reading) : Compartido :=
  { c with history := ultimos c.maxlen (c.history ++ [m]) }

/-- Model of `ultima`: `history[-1]` when the history is non-empty, else
`None`. -/
def ultima (c : Compartido) : Option Reading :=
  if c.history.isEmpty then none else c.history.getLast?

/-- Model of `obtener_historial`: `list(history)`, a snapshot copy,
oldest first. -/
def obtener_historial (c : Compartido) : List Reading :=
  c.history

/-- Whole sequence of appends, in order. -/
def agregar_muestras (c : Compartido) (ms : List Reading) : Compartido :=
  ms.foldl agregar_muestra c

/-- Shared state as `main` builds it: `crear_compartido(maxlen=180)`. -/
def compartido_de_main : Compartido :=
  crear_compartido 180

/-- Hundredths of a rational: the integer `100 * q` for the 2-decimal
values stored in readings (a general `q` is floored). -/
def centesimas (q : ℚ) : ℤ :=
  (q * 100).floor

/-- Fraction digits (one or two) of Python's `str` of a float holding a
2-decimal value: `.5` prints as `5`, `.25` as `25`, `.05` as `05`, and an
integral value prints `0`. -/
def cifras_fraccion (fp : ℕ) : String :=
  if fp = 0 then "0"
  else if fp % 10 = 0 then toString (fp / 10)
  else if fp < 10 then "0" ++ toString fp
  else toString fp

/-- Rendering of a float holding a 2-decimal value by Python's `str`, as
interpolated into rows and into the trend sentence. -/
def fmtQ (q : ℚ) : String :=
  (if centesimas q < 0 then "-" else "") ++
    toString ((centesimas q).natAbs / 100) ++ "." ++
    cifras_fraccion ((centesimas q).natAbs % 100)

/-- Inner helper `trend(a, b, tol)` of `describe_trend`. -/
def trend (a b tol : ℚ) : String :=
  if b - a > tol then "subiendo"
  else if a - b > tol then "bajando"
  else "estable"

/-- Model of `describe_trend(history)`: with fewer than two points it
reports that data is still being collected; otherwise it classifies each
quantity from the last two points (`history[-2]`, `history[-1]`) and
interpolates the latest values into one sentence. -/
def describe_trend (history : List Reading) : String :=
  if history.length < 2 then "Recopilando datos..."
  else
    let last := history.getLast?.getD default
    let prev := history.dropLast.getLast?.getD default
    let t_tr := trend prev.temperatura last.temperatura (3 / 10)
    let h_tr := trend prev.humedad last.humedad 1
    let p_tr := trend prev.presion last.presion (3 / 10)
    "Temperatura " ++ t_tr ++ " (" ++ fmtQ last.temperatura ++
      " °C), humedad " ++ h_tr ++ " (" ++ fmtQ last.humedad ++
      " %), presión " ++ p_tr ++ " (" ++ fmtQ last.presion ++ " hPa)."

/-- Qualitative classification values, named as the spec names them. -/
inductive Tendencia where
  | rising
  | falling
  | stable
deriving DecidableEq

/-- Classification as the spec words it: rising when `last - previous`
exceeds the tolerance, falling when `previous - last` does, else
stable. -/
def clasifica (previo ultimo tol : ℚ) : Tendencia :=
  if ultimo - previo > tol then Tendencia.rising
  else if previo - ultimo > tol then Tendencia.falling
  else Tendencia.stable

/-- Spanish word the program prints for each classification. -/
def palabra : Tendencia → String
  | Tendencia.rising => "subiendo"
  | Tendencia.falling => "bajando"
  | Tendencia.stable => "estable"

/-- Specification-side rendition of `describe_trend`: fewer than 2
entries give the fixed insufficient-data indicator; otherwise the last
two entries are classified independently per quantity with tolerances
0.3, 1.0, 0.3 and reported with the latest values, in the order
temperature, humidity, pressure. -/
def describe_trend_spec (history : List Reading) : String :=
  match history.reverse with
  | ultimo :: previo :: _ =>
      "Temperatura " ++
        palabra (clasifica previo.temperatura ultimo.temperatura (3 / 10)) ++
        " (" ++ fmtQ ultimo.temperatura ++ " °C), humedad " ++
        palabra (clasifica previo.humedad ultimo.humedad 1) ++
        " (" ++ fmtQ ultimo.humedad ++ " %), presión " ++
        palabra (clasifica previo.presion ultimo.presion (3 / 10)) ++
        " (" ++ fmtQ ultimo.presion ++ " hPa)."
  | _ => "Recopilando datos..."

/-- Projection of a reading onto its three numeric fields. -/
def campos (r : Reading) : ℚ × ℚ × ℚ :=
  (r.temperatura, r.humedad, r.presion)

/-- Clamping `max(lo, min(hi, x))`, the pattern in `hilo_generador`. -/
def clamp (lo hi x : ℚ) : ℚ :=
  max lo (min hi x)

/-- Model of Python's `round(x, 2)`: rounding to the nearest hundredth
(the tie-breaking rule is immaterial to every claim below). -/
def round2 (x : ℚ) : ℚ :=
  ((x * 100 + 1 / 2).floor : ℚ) / 100

/-- Generator-local state: the unrounded random-walk values of the three
quantities. -/
structure GenEstado where
  temperatura : ℚ
  humedad : ℚ
  presion : ℚ

/-- One iteration of `hilo_generador`'s loop body: add the perturbation,
clamp each quantity to its physical range, then build the rounded,
timestamped sample.  The perturbation `d` and the clock value `ahora` are
inputs of the step. -/
def paso_generador (s : GenEstado) (d : ℚ × ℚ × ℚ) (ahora : Timestamp) :
    GenEstado × Reading :=
  let t := clamp (-50) 60 (s.temperatura + d.1)
  let h := clamp 0 100 (s.humedad + d.2.1)
  let p := clamp 300 1100 (s.presion + d.2.2)
  (⟨t, h, p⟩, ⟨ahora, round2 t, round2 h, round2 p⟩)

/-- Loop of `hilo_generador`: one `paso_generador` plus `agregar_muestra`
per entry of the input list (each entry holds one tick's perturbation and
clock value). -/
def hilo_generador_run (c : Compartido) (s : GenEstado) :
    List ((ℚ × ℚ × ℚ) × Timestamp) → Compartido
  | [] => c
  | (d, ahora) :: resto =>
      hilo_generador_run (agregar_muestra c (paso_generador s d ahora).2)
        (paso_generador s d ahora).1 resto

/-- Physical validity ranges of the three quantities of a reading. -/
def lectura_en_rango (m : Reading) : Prop :=
  (-50 ≤ m.temperatura ∧ m.temperatura ≤ 60) ∧
    (0 ≤ m.humedad ∧ m.humedad ≤ 100) ∧
    (300 ≤ m.presion ∧ m.presion ≤ 1100)

/-- One row written by `csv.writer.writerow` in `hilo_registrador`:
either the header row or one data row. -/
inductive Row where
  | header : Row
  | data : Reading → Row
deriving DecidableEq

/-- Body of each `with open(...)` block: write the header first if
`escribir_cabecera` is still set (clearing it), then the sample's row. -/
def escribe (ec : Bool) (r : Reading) : Bool × List Row :=
  if ec then (false, [Row.header, Row.data r]) else (ec, [Row.data r])

/-- Steady-state loop of `hilo_registrador`: each element of `obs` is the
value `ultima(compartido)` observed after one 5-unit wait; `None` skips
the cycle, a sample appends rows via `escribe`. -/
def ciclo_registrador : Bool → List (Option Reading) → List Row
  | _, [] => []
  | ec, none :: resto => ciclo_registrador ec resto
  | ec, some r :: resto =>
      (escribe ec r).2 ++ ciclo_registrador (escribe ec r).1 resto

/-- Model of `hilo_registrador` as the sequence of rows it appends to its
CSV destination: `existed` is whether the file existed at startup (the
header decision `escribir_cabecera = not exists(ruta_csv)` is made once,
here), the startup write reads `ultima c`, and `obs` drives the periodic
loop. -/
def hilo_registrador_run (c : Compartido) (existed : Bool)
    (obs : List (Option Reading)) : List Row :=
  match ultima c with
  | none => ciclo_registrador (!existed) obs
  | some r =>
      (escribe (!existed) r).2 ++ ciclo_registrador (escribe (!existed) r).1 obs

/-- Header list of `hilo_registrador`, in source order. -/
def cabecera : List String :=
  ["datetime", "temperatura_C", "humedad_percent", "presion_hPa"]

/-- Model of `csv.writer.writerow`: fields joined by commas (none of the
fields written by this program ever needs quoting). -/
def une_campos : List String → String
  | [] => ""
  | [x] => x
  | x :: resto => x ++ "," ++ une_campos resto

/-- Zero-padding to 2 digits, as in `datetime` components. -/
def pad2 (n : ℕ) : String :=
  if n < 10 then "0" ++ toString n else toString n

/-- Zero-padding to 4 digits, for the year. -/
def pad4 (n : ℕ) : String :=
  if n < 10 then "000" ++ toString n
  else if n < 100 then "00" ++ toString n
  else if n < 1000 then "0" ++ toString n
  else toString n

/-- Zero-padding to 6 digits, for the microsecond component. -/
def pad6 (n : ℕ) : String :=
  if n < 10 then "00000" ++ toString n
  else if n < 100 then "0000" ++ toString n
  else if n < 1000 then "000" ++ toString n
  else if n < 10000 then "00" ++ toString n
  else if n < 100000 then "0" ++ toString n
  else toString n

/-- Date-and-time part `YYYY-MM-DD HH:MM:SS` of
`datetime.isoformat(sep=" ")`, without microseconds. -/
def fecha_hora_base (t : Timestamp) : String :=
  pad4 t.year ++ "-" ++ pad2 t.month ++ "-" ++ pad2 t.day ++ " " ++
    pad2 t.hour ++ ":" ++ pad2 t.minute ++ ":" ++ pad2 t.second

/-- Model of `datetime.isoformat(sep=" ")`: Python emits the fractional
`.ffffff` part only when the microsecond component is nonzero. -/
def isoformat (t : Timestamp) : String :=
  fecha_hora_base t ++
    (if t.microsecond = 0 then "" else "." ++ pad6 t.microsecond)

/-- CSV line for one written row: the header fields, or
`[ts.isoformat(sep=" "), temperatura, humedad, presion]`. -/
def fila_csv : Row → String
  | Row.header => une_campos cabecera
  | Row.data r =>
      une_campos
        [isoformat r.ts, fmtQ r.temperatura, fmtQ r.humedad, fmtQ r.presion]

/-- Shape of a numeric CSV field: some prefix, a dot, then one or two
fraction digits. -/
def dos_decimales (s : String) : Prop :=
  ∃ pre fr, s = pre ++ "." ++ fr ∧ 1 ≤ fr.length ∧ fr.length ≤ 2

/-- A fixed concrete reading used by witnesses. -/
def lecturaA : Reading :=
  { ts := ⟨2024, 1, 1, 0, 0, 0, 0⟩, temperatura := 20, humedad := 50,
    presion := 1010 }

/-- A second fixed concrete reading used by witnesses. -/
def lecturaB : Reading :=
  { ts := ⟨2024, 1, 1, 0, 0, 1, 0⟩, temperatura := 21, humedad := 51,
    presion := 1011 }

/-- Same numeric fields as `lecturaA`, different timestamp. -/
def lecturaC : Reading :=
  { ts := ⟨1999, 12, 31, 23, 59, 59, 999999⟩, temperatura := 20,
    humedad := 50, presion := 1010 }

/-- Same numeric fields as `lecturaB`, different timestamp. -/
def lecturaD : Reading :=
  { ts := ⟨2000, 6, 15, 12, 0, 0, 5⟩, temperatura := 21, humedad := 51,
    presion := 1011 }

/-- An unrelated early reading, used to show old entries are ignored. -/
def lecturaE : Reading :=
  { ts := ⟨2010, 3, 3, 3, 3, 3, 3⟩, temperatura := 99, humedad := 1,
    presion := 333 }

/-- A fixed timestamp used by witnesses. -/
def marcaTiempo0 : Timestamp :=
  ⟨2024, 1, 1, 0, 0, 0, 0⟩

/-! ### Helper lemmas -/

lemma ultimos_eq_reverse {α : Type*} (n : ℕ) (l : List α) :
    ultimos n l = (l.reverse.take n).reverse := by
  have h : (l.reverse.take n).reverse =
      l.reverse.reverse.drop (l.reverse.length - n) := List.reverse_take
  rw [List.reverse_reverse, List.length_reverse] at h
  rw [ultimos]
  exact h.symm

lemma length_ultimos {α : Type*} (n : ℕ) (l : List α) :
    (ultimos n l).length = min n l.length := by
  simp only [ultimos, List.length_drop]
  omega

lemma ultimos_of_length_le {α : Type*} {n : ℕ} {l : List α}
    (h : l.length ≤ n) : ultimos n l = l := by
  simp [ultimos, Nat.sub_eq_zero_of_le h]

lemma mem_of_mem_ultimos {α : Type*} {n : ℕ} {l : List α} {a : α}
    (h : a ∈ ultimos n l) : a ∈ l :=
  (List.drop_sublist _ _).mem h

lemma take_append_take {α : Type*} (n : ℕ) (xs r : List α) :
    (xs ++ r.take n).take n = (xs ++ r).take n := by
  rw [List.take_append_eq_append_take, List.take_append_eq_append_take,
    List.take_take, Nat.min_eq_left (Nat.sub_le _ _)]

lemma ultimos_append_ultimos {α : Type*} (n : ℕ) (l xs : List α) :
    ultimos n (ultimos n l ++ xs) = ultimos n (l ++ xs) := by
  rw [ultimos_eq_reverse n l, ultimos_eq_reverse, ultimos_eq_reverse]
  simp only [List.reverse_append, List.reverse_reverse]
  rw [take_append_take]

/-- After any sequence of appends starting from a history within bound,
the deque holds exactly the last `maxlen` entries of everything ever
appended. -/
lemma history_agregar_muestras (cap : ℕ) (xs : List Reading) :
    ∀ acc : List Reading, acc.length ≤ cap →
      (agregar_muestras ⟨cap, acc⟩ xs).history = ultimos cap (acc ++ xs) := by
  induction xs with
  | nil =>
      intro acc hacc
      simp [agregar_muestras, ultimos_of_length_le hacc]
  | cons x xs ih =>
      intro acc hacc
      have hstep : agregar_muestra ⟨cap, acc⟩ x =
          ⟨cap, ultimos cap (acc ++ [x])⟩ := rfl
      have hlen : (ultimos cap (acc ++ [x])).length ≤ cap := by
        rw [length_ultimos]; omega
      calc (agregar_muestras ⟨cap, acc⟩ (x :: xs)).history
          = (agregar_muestras ⟨cap, ultimos cap (acc ++ [x])⟩ xs).history := by
            simp [agregar_muestras, hstep]
        _ = ultimos cap (ultimos cap (acc ++ [x]) ++ xs) := ih _ hlen
        _ = ultimos cap ((acc ++ [x]) ++ xs) := ultimos_append_ultimos ..
        _ = ultimos cap (acc ++ x :: xs) := by simp

lemma palabra_clasifica (a b tol : ℚ) :
    palabra (clasifica a b tol) = trend a b tol := by
  simp only [clasifica, trend]
  split_ifs <;> rfl

lemma exists_concat_two {l : List Reading} (h : 2 ≤ l.length) :
    ∃ l' a b, l = l' ++ [a, b] := by
  rcases hr : l.reverse with _ | ⟨b, tb⟩
  · have hl : l = [] := by
      have := congrArg List.reverse hr
      simpa using this
    rw [hl] at h
    simp at h
  · rcases hb : tb with _ | ⟨a, t⟩
    · rw [hb] at hr
      have hl : l = [b] := by
        have := congrArg List.reverse hr
        simpa using this
      rw [hl] at h
      simp at h
    · refine ⟨t.reverse, a, b, ?_⟩
      have hrr : l.reverse.reverse = (b :: a :: t).reverse := by
        rw [hr, hb]
      simpa using hrr

lemma ultima_de_concat (l : List Reading) (a b : Reading) :
    (l ++ [a, b]).getLast? = some b := by
  have h2 : l ++ [a, b] = (l ++ [a]) ++ [b] := by simp
  rw [h2, List.getLast?_concat]

lemma penultima_de_concat (l : List Reading) (a b : Reading) :
    (l ++ [a, b]).dropLast.getLast? = some a := by
  have h2 : l ++ [a, b] = (l ++ [a]) ++ [b] := by simp
  rw [h2, List.dropLast_concat, List.getLast?_concat]

/-- Closed form of `describe_trend` on a history ending in `a`, `b`. -/
lemma describe_trend_concat (l : List Reading) (a b : Reading) :
    describe_trend (l ++ [a, b]) =
      "Temperatura " ++ trend a.temperatura b.temperatura (3 / 10) ++ " (" ++
        fmtQ b.temperatura ++ " °C), humedad " ++ trend a.humedad b.humedad 1 ++
        " (" ++ fmtQ b.humedad ++ " %), presión " ++
        trend a.presion b.presion (3 / 10) ++ " (" ++ fmtQ b.presion ++
        " hPa)." := by
  have hlen : ¬ (l ++ [a, b]).length < 2 := by
    simp only [List.length_append, List.length_cons, List.length_nil]
    omega
  simp only [describe_trend, if_neg hlen, ultima_de_concat,
    penultima_de_concat, Option.getD_some]

/-- Agreement of the computable `Rat.floor` with `Int.floor`. -/
lemma rat_floor_eq_int_floor (q : ℚ) : q.floor = ⌊q⌋ :=
  (Rat.floor_def' q).trans Rat.floor_def.symm

lemma clamp_entre (lo hi x : ℚ) (h : lo ≤ hi) :
    lo ≤ clamp lo hi x ∧ clamp lo hi x ≤ hi :=
  ⟨le_max_left _ _, max_le h (min_le_left _ _)⟩

lemma round2_entre (a b : ℤ) {x : ℚ} (hax : (a : ℚ) ≤ x)
    (hxb : x ≤ (b : ℚ)) : (a : ℚ) ≤ round2 x ∧ round2 x ≤ (b : ℚ) := by
  have h1 : (a * 100 : ℤ) ≤ ⌊x * 100 + 1 / 2⌋ := by
    rw [Int.le_floor]
    push_cast
    linarith
  have h2 : ⌊x * 100 + 1 / 2⌋ ≤ (b * 100 : ℤ) := by
    calc ⌊x * 100 + 1 / 2⌋ ≤ ⌊((b * 100 : ℤ) : ℚ) + 1 / 2⌋ := by
          refine Int.floor_mono ?_
          push_cast
          linarith
      _ = b * 100 + ⌊(1 / 2 : ℚ)⌋ := Int.floor_int_add _ _
      _ = b * 100 := by norm_num [Int.floor_eq_zero_iff]
  constructor
  · rw [round2, rat_floor_eq_int_floor,
      le_div_iff₀ (by norm_num : (0 : ℚ) < 100)]
    calc (a : ℚ) * 100 = ((a * 100 : ℤ) : ℚ) := by push_cast; ring
      _ ≤ ((⌊x * 100 + 1 / 2⌋ : ℤ) : ℚ) := by exact_mod_cast h1
  · rw [round2, rat_floor_eq_int_floor,
      div_le_iff₀ (by norm_num : (0 : ℚ) < 100)]
    calc ((⌊x * 100 + 1 / 2⌋ : ℤ) : ℚ) ≤ ((b * 100 : ℤ) : ℚ) := by
          exact_mod_cast h2
      _ = (b : ℚ) * 100 := by push_cast; ring

lemma paso_generador_en_rango (s : GenEstado) (d : ℚ × ℚ × ℚ)
    (ahora : Timestamp) : lectura_en_rango (paso_generador s d ahora).2 := by
  have ht := clamp_entre (-50) 60 (s.temperatura + d.1) (by norm_num)
  have hh := clamp_entre 0 100 (s.humedad + d.2.1) (by norm_num)
  have hp := clamp_entre 300 1100 (s.presion + d.2.2) (by norm_num)
  have ht2 := round2_entre (-50) 60
    (by exact_mod_cast ht.1) (by exact_mod_cast ht.2)
  have hh2 := round2_entre 0 100
    (by exact_mod_cast hh.1) (by exact_mod_cast hh.2)
  have hp2 := round2_entre 300 1100
    (by exact_mod_cast hp.1) (by exact_mod_cast hp.2)
  refine ⟨⟨?_, ?_⟩, ⟨?_, ?_⟩, ?_, ?_⟩ <;>
    first
      | exact_mod_cast ht2.1
      | exact_mod_cast ht2.2
      | exact_mod_cast hh2.1
      | exact_mod_cast hh2.2
      | exact_mod_cast hp2.1
      | exact_mod_cast hp2.2

lemma hilo_generador_run_rango
    (entradas : List ((ℚ × ℚ × ℚ) × Timestamp)) :
    ∀ (c : Compartido) (s : GenEstado),
      (∀ m ∈ c.history, lectura_en_rango m) →
      ∀ m ∈ (hilo_generador_run c s entradas).history, lectura_en_rango m := by
  induction entradas with
  | nil => intro c s hc m hm; exact hc m hm
  | cons e resto ih =>
      intro c s hc m hm
      rcases e with ⟨d, ahora⟩
      rw [hilo_generador_run] at hm
      refine ih _ _ ?_ m hm
      intro x hx
      rcases List.mem_append.mp (mem_of_mem_ultimos hx) with h | h
      · exact hc x h
      · rw [List.mem_singleton] at h
        subst h
        exact paso_generador_en_rango ..

lemma ciclo_false_sin_cabecera (obs : List (Option Reading)) :
    Row.header ∉ ciclo_registrador false obs := by
  induction obs with
  | nil => simp [ciclo_registrador]
  | cons o resto ih =>
      cases o with
      | none => simpa [ciclo_registrador] using ih
      | some r => simpa [ciclo_registrador, escribe] using ih

lemma ciclo_true_forma (obs : List (Option Reading)) :
    ciclo_registrador true obs = [] ∨
      ∃ r resto, ciclo_registrador true obs =
        Row.header :: Row.data r :: ciclo_registrador false resto := by
  induction obs with
  | nil => left; rfl
  | cons o resto ih =>
      cases o with
      | none => simpa [ciclo_registrador] using ih
      | some r => right; exact ⟨r, resto, rfl⟩

lemma cifras_fraccion_longitud :
    ∀ fp < 100, 1 ≤ (cifras_fraccion fp).length ∧
      (cifras_fraccion fp).length ≤ 2 := by
  decide

lemma fmtQ_dos_decimales (q : ℚ) : dos_decimales (fmtQ q) := by
  refine ⟨(if centesimas q < 0 then "-" else "") ++
    toString ((centesimas q).natAbs / 100),
    cifras_fraccion ((centesimas q).natAbs % 100), rfl, ?_, ?_⟩
  · exact (cifras_fraccion_longitud _ (Nat.mod_lt _ (by norm_num))).1
  · exact (cifras_fraccion_longitud _ (Nat.mod_lt _ (by norm_num))).2

/-! ### Claims -/

/-- C1: appending more than `cap` readings into a fresh buffer leaves a
snapshot of length exactly `cap`, holding precisely the `cap` most recent
readings, oldest first. -/
theorem snapshot_tras_desborde (cap : ℕ) (xs : List Reading)
    (hx : cap < xs.length) :
    obtener_historial (agregar_muestras (crear_compartido cap) xs) =
      xs.drop (xs.length - cap) ∧
    (obtener_historial (agregar_muestras (crear_compartido cap) xs)).length =
      cap := by
  have h := history_agregar_muestras cap xs [] (by simp)
  simp only [List.nil_append] at h
  have hh : obtener_historial (agregar_muestras (crear_compartido cap) xs) =
      ultimos cap xs := h
  refine ⟨hh, ?_⟩
  rw [hh, length_ultimos]
  omega

theorem snapshot_tras_desborde_witness :
    1 < ([lecturaA, lecturaB] : List Reading).length ∧
      (obtener_historial
          (agregar_muestras (crear_compartido 1) [lecturaA, lecturaB]) =
        [lecturaA, lecturaB].drop
          (([lecturaA, lecturaB] : List Reading).length - 1) ∧
      (obtener_historial
          (agregar_muestras (crear_compartido 1) [lecturaA, lecturaB])).length =
        1) :=
  ⟨by decide, snapshot_tras_desborde 1 [lecturaA, lecturaB] (by decide)⟩

/-- C2: `describe_trend` agrees everywhere with its specification: the
fixed indicator under 2 entries, else the independent per-quantity
classification of the last two entries with tolerances 0.3 / 1.0 / 0.3,
reported with the latest values in the order temperature, humidity,
pressure. -/
theorem describe_trend_refina (history : List Reading) :
    describe_trend history = describe_trend_spec history := by
  by_cases h2 : 2 ≤ history.length
  · obtain ⟨l, a, b, rfl⟩ := exists_concat_two h2
    have hrev : (l ++ [a, b]).reverse = b :: a :: l.reverse := by simp
    rw [describe_trend_concat]
    simp only [describe_trend_spec, hrev, palabra_clasifica]
  · match history with
    | [] => rfl
    | [x] => rfl
    | x :: y :: t => exact absurd (by simp) h2

/-- C3: whatever the perturbation sequence, every reading found in the
buffer after running the generator from a fresh buffer lies within the
physical ranges: temperature in [-50, 60], humidity in [0, 100], pressure
in [300, 1100]. -/
theorem generador_en_rango (cap : ℕ) (s : GenEstado)
    (entradas : List ((ℚ × ℚ × ℚ) × Timestamp)) (m : Reading)
    (hm : m ∈ obtener_historial
      (hilo_generador_run (crear_compartido cap) s entradas)) :
    lectura_en_rango m :=
  hilo_generador_run_rango entradas (crear_compartido cap) s
    (fun x hx => absurd hx (List.not_mem_nil x)) m hm

theorem generador_en_rango_witness :
    (⟨marcaTiempo0, 60, 0, 1010⟩ : Reading) ∈
        obtener_historial (hilo_generador_run (crear_compartido 5)
          ⟨20, 50, 1010⟩ [((1000, -1000, 0), marcaTiempo0)]) ∧
      lectura_en_rango (⟨marcaTiempo0, 60, 0, 1010⟩ : Reading) := by
  have hmem : (⟨marcaTiempo0, 60, 0, 1010⟩ : Reading) ∈
      obtener_historial (hilo_generador_run (crear_compartido 5)
        ⟨20, 50, 1010⟩ [((1000, -1000, 0), marcaTiempo0)]) := by
    norm_num [obtener_historial, hilo_generador_run, paso_generador,
      agregar_muestra, crear_compartido, ultimos, clamp, round2,
      rat_floor_eq_int_floor, min_def, max_def]
  exact ⟨hmem, generador_en_rango 5 ⟨20, 50, 1010⟩
    [((1000, -1000, 0), marcaTiempo0)] ⟨marcaTiempo0, 60, 0, 1010⟩ hmem⟩

/-- C4 (amended): the logger emits the header row at most once per run,
and the header appears exactly when the destination did not exist at
startup and at least one row is written at all; the decision stems only
from pre-existence at startup. -/
theorem registrador_cabecera_una_vez (c : Compartido) (existed : Bool)
    (obs : List (Option Reading)) :
    (hilo_registrador_run c existed obs).count Row.header ≤ 1 ∧
      (Row.header ∈ hilo_registrador_run c existed obs ↔
        existed = false ∧ hilo_registrador_run c existed obs ≠ []) := by
  cases existed with
  | true =>
      cases hu : ultima c with
      | none =>
          have hrun : hilo_registrador_run c true obs =
              ciclo_registrador false obs := by
            simp [hilo_registrador_run, hu]
          rw [hrun]
          have hni := ciclo_false_sin_cabecera obs
          exact ⟨by simp [List.count_eq_zero.mpr hni], by simp [hni]⟩
      | some r =>
          have hrun : hilo_registrador_run c true obs =
              Row.data r :: ciclo_registrador false obs := by
            simp [hilo_registrador_run, hu, escribe]
          rw [hrun]
          have hni := ciclo_false_sin_cabecera obs
          constructor
          · simp [List.count_cons, List.count_eq_zero.mpr hni]
          · simp [hni]
  | false =>
      cases hu : ultima c with
      | none =>
          have hrun : hilo_registrador_run c false obs =
              ciclo_registrador true obs := by
            simp [hilo_registrador_run, hu]
          rw [hrun]
          rcases ciclo_true_forma obs with hvac | ⟨r, resto, hforma⟩
          · rw [hvac]
            simp
          · rw [hforma]
            have hni := ciclo_false_sin_cabecera resto
            constructor
            · simp [List.count_cons, List.count_eq_zero.mpr hni]
            · simp
      | some r =>
          have hrun : hilo_registrador_run c false obs =
              Row.header :: Row.data r :: ciclo_registrador false obs := by
            simp [hilo_registrador_run, hu, escribe]
          rw [hrun]
          have hni := ciclo_false_sin_cabecera obs
          constructor
          · simp [List.count_cons, List.count_eq_zero.mpr hni]
          · simp

/-- C4 counterexample: with no pre-existing destination but no reading
ever available, the logger writes nothing at all — in particular no
header — although the destination did not exist at startup. -/
theorem registrador_cabecera_contra :
    hilo_registrador_run (crear_compartido 180) false [] = [] ∧
      Row.header ∉ hilo_registrador_run (crear_compartido 180) false [] := by
  constructor <;> decide

/-- C5 (amended): the constructor's default capacity is 300; the explicit
180 comes from `main`'s call site. -/
theorem capacidad_defecto :
    (crear_compartido).maxlen = 300 ∧ compartido_de_main.maxlen = 180 :=
  ⟨rfl, rfl⟩

/-- C5 counterexample: `crear_compartido` called without a capacity
argument uses bound 300, not 180. -/
theorem capacidad_defecto_contra :
    (crear_compartido).maxlen = 300 ∧ (crear_compartido).maxlen ≠ 180 := by
  decide

/-- C6 (amended): the header row written to a new destination is exactly
`datetime,temperatura_C,humedad_percent,presion_hPa`. -/
theorem cabecera_columnas :
    fila_csv Row.header =
      "datetime,temperatura_C,humedad_percent,presion_hPa" := by
  decide

/-- C6 counterexample: the header line uses the Spanish column names of
the source, not the English ones the claim states. -/
theorem cabecera_contra :
    fila_csv Row.header ≠
        "datetime,temperature_C,humidity_percent,pressure_hPa" ∧
      fila_csv Row.header =
        "datetime,temperatura_C,humedad_percent,presion_hPa" := by
  constructor <;> decide

/-- C7: if the buffer holds a reading at logger startup, its row is
written immediately, before any periodic output (preceded by the header
exactly when the destination is new); if the buffer is empty at startup,
nothing is written then and only the periodic loop's output remains. -/
theorem registrador_arranque (c : Compartido) (existed : Bool)
    (obs : List (Option Reading)) :
    (∀ r, ultima c = some r →
      hilo_registrador_run c existed obs =
        (if existed then [] else [Row.header]) ++
          Row.data r :: ciclo_registrador false obs) ∧
    (ultima c = none →
      hilo_registrador_run c existed obs =
        ciclo_registrador (!existed) obs) := by
  constructor
  · intro r hr
    cases existed <;> simp [hilo_registrador_run, hr, escribe]
  · intro hr
    simp [hilo_registrador_run, hr]

theorem registrador_arranque_witness :
    ultima (Compartido.mk 3 [lecturaA]) = some lecturaA ∧
      hilo_registrador_run (Compartido.mk 3 [lecturaA]) false [] =
        [Row.header, Row.data lecturaA] := by
  refine ⟨rfl, ?_⟩
  have h := (registrador_arranque (Compartido.mk 3 [lecturaA]) false []).1
    lecturaA rfl
  simpa [ciclo_registrador] using h

/-- C8 (amended): every data row is the timestamp and the three numeric
fields joined by commas; the timestamp is `YYYY-MM-DD HH:MM:SS`, gaining
a `.ffffff` part only when the microsecond component is nonzero; each
numeric field carries one or two fraction digits. -/
theorem fila_datos_formato (r : Reading) :
    fila_csv (Row.data r) =
        isoformat r.ts ++ "," ++
          (fmtQ r.temperatura ++ "," ++
            (fmtQ r.humedad ++ "," ++ fmtQ r.presion)) ∧
      (r.ts.microsecond = 0 → isoformat r.ts = fecha_hora_base r.ts) ∧
      (r.ts.microsecond ≠ 0 →
        isoformat r.ts =
          fecha_hora_base r.ts ++ ("." ++ pad6 r.ts.microsecond)) ∧
      dos_decimales (fmtQ r.temperatura) ∧
      dos_decimales (fmtQ r.humedad) ∧
      dos_decimales (fmtQ r.presion) := by
  refine ⟨?_, fun h => ?_, fun h => ?_, fmtQ_dos_decimales _,
    fmtQ_dos_decimales _, fmtQ_dos_decimales _⟩
  · simp [fila_csv, une_campos, String.append_assoc]
  · rw [isoformat, if_pos h, String.append_empty]
  · rw [isoformat, if_neg h]

theorem fila_datos_formato_witness :
    lecturaA.ts.microsecond = 0 ∧
      isoformat lecturaA.ts = fecha_hora_base lecturaA.ts :=
  ⟨rfl, (fila_datos_formato lecturaA).2.1 rfl⟩

/-- C8 counterexample: a timestamp with microsecond component 0 is
serialized without any fractional part, contrary to the claimed
unconditional `.ffffff` suffix. -/
theorem fila_hora_contra :
    isoformat ⟨2024, 1, 2, 3, 4, 5, 0⟩ = "2024-01-02 03:04:05" ∧
      "2024-01-02 03:04:05" ≠ "2024-01-02 03:04:05.000000" := by
  constructor <;> decide

/-- C9: on a non-empty buffer, `ultima` is the last element of the
snapshot returned by `obtener_historial`; on an empty buffer it is the
`none` sentinel rather than an error. -/
theorem ultima_es_final_snapshot (c : Compartido) :
    (obtener_historial c ≠ [] → ultima c = (obtener_historial c).getLast?) ∧
    (obtener_historial c = [] → ultima c = none) := by
  cases hc : c.history with
  | nil =>
      refine ⟨fun h => absurd ?_ h, fun _ => ?_⟩ <;>
        simp [obtener_historial, ultima, hc]
  | cons x xs =>
      refine ⟨fun _ => ?_, fun h => ?_⟩
      · simp [obtener_historial, ultima, hc]
      · rw [obtener_historial, hc] at h
        exact absurd h (by simp)

theorem ultima_es_final_snapshot_witness :
    obtener_historial (Compartido.mk 2 [lecturaA]) ≠ [] ∧
      ultima (Compartido.mk 2 [lecturaA]) =
        (obtener_historial (Compartido.mk 2 [lecturaA])).getLast? :=
  ⟨by decide, (ultima_es_final_snapshot ⟨2, [lecturaA]⟩).1 (by decide)⟩

/-- C10: on histories of length at least 2, `describe_trend` depends only
on the temperature, humidity and pressure fields of the last two entries:
earlier entries and all timestamps are irrelevant. -/
theorem describe_trend_solo_ultimos_dos (h1 h2 : List Reading)
    (hl1 : 2 ≤ h1.length) (hl2 : 2 ≤ h2.length)
    (hprev : campos (h1.dropLast.getLast?.getD default) =
      campos (h2.dropLast.getLast?.getD default))
    (hlast : campos (h1.getLast?.getD default) =
      campos (h2.getLast?.getD default)) :
    describe_trend h1 = describe_trend h2 := by
  obtain ⟨l1, a1, b1, rfl⟩ := exists_concat_two hl1
  obtain ⟨l2, a2, b2, rfl⟩ := exists_concat_two hl2
  rw [ultima_de_concat, ultima_de_concat, Option.getD_some, Option.getD_some]
    at hlast
  rw [penultima_de_concat, penultima_de_concat, Option.getD_some,
    Option.getD_some] at hprev
  simp only [campos, Prod.mk.injEq] at hprev hlast
  obtain ⟨hat, hah, hap⟩ := hprev
  obtain ⟨hbt, hbh, hbp⟩ := hlast
  rw [describe_trend_concat, describe_trend_concat, hat, hah, hap, hbt,
    hbh, hbp]

theorem describe_trend_solo_ultimos_dos_witness :
    describe_trend [lecturaA, lecturaB] =
      describe_trend [lecturaE, lecturaC, lecturaD] :=
  describe_trend_solo_ultimos_dos [lecturaA, lecturaB]
    [lecturaE, lecturaC, lecturaD] (by decide) (by decide) (by decide)
    (by decide)

end Semaforos
